import Mathlib

/-!
# Verification of the Evolla model implementation

A shallow embedding of the pure computational content of
`src/transformers/models/evolla/modeling_evolla.py`:

* tensors are modelled as explicit dimension tuples together with entry
  functions over `ℚ` (entries outside the dimensions are irrelevant);
* Python integer division `//` on non-negative operands is `Nat` division;
* Python exceptions (`ZeroDivisionError`, `AssertionError`, `ValueError`)
  become `Except` values;
* mutable module state (the rotary-embedding frequency cache) is threaded
  explicitly through state-passing functions.
-/

namespace Evolla

/-- A rank-4 tensor: explicit dimensions plus an entry function. -/
structure Tensor4 where
  dims : Nat × Nat × Nat × Nat
  entry : Nat → Nat → Nat → Nat → ℚ

/-- Python exception values raised by the embedded code. -/
inductive PyError where
  | zeroDivision
  | assertionError
  | valueError (msg : String)
  deriving DecidableEq, Repr

/-! ## Adapter placement (`EvollaLLM.__init__`, modeling_evolla.py:762-772)

```python
every_n_layers = max(num_hidden_layers // num_add_layers, 1)
for i, layer in enumerate(range(num_hidden_layers)):
    if (i + 1) % every_n_layers == 0:
        self.layers[i].adapter = CrossAttention(...)
```
-/

/-- Whether decoder layer `i` (0-based) receives a cross-attention adapter. -/
def hasAdapterAt (numHiddenLayers numAddLayers i : Nat) : Bool :=
  (i + 1) % max (numHiddenLayers / numAddLayers) 1 == 0

/-- The 0-based indices of the adapter-bearing decoder layers, as produced by
the construction loop over `range(num_hidden_layers)`. -/
def adapterIndices (numHiddenLayers numAddLayers : Nat) : List Nat :=
  (List.range numHiddenLayers).filter (fun i => hasAdapterAt numHiddenLayers numAddLayers i)

/-! ## Self-attention construction (`EvollaAttention.__init__`, modeling_evolla.py:340-363)

```python
self.head_dim = hidden_size // num_attention_heads
self.num_key_value_groups = num_attention_heads // num_key_value_heads
assert self.num_key_value_groups > 0
```

A division by zero raises `ZeroDivisionError` before the assertion is reached;
the assertion failure raises `AssertionError`. On success the constructor's
derived quantities are `(head_dim, num_key_value_groups)`. -/

def evollaAttentionInit (hiddenSize numAttentionHeads numKeyValueHeads : Nat) :
    Except PyError (Nat × Nat) :=
  if numAttentionHeads = 0 then .error .zeroDivision
  else
    let headDim := hiddenSize / numAttentionHeads
    if numKeyValueHeads = 0 then .error .zeroDivision
    else
      let numKeyValueGroups := numAttentionHeads / numKeyValueHeads
      if 0 < numKeyValueGroups then .ok (headDim, numKeyValueGroups)
      else .error .assertionError

/-- `True` iff `EvollaAttention.__init__` completes without raising. -/
def attentionInitSucceeds (hiddenSize numAttentionHeads numKeyValueHeads : Nat) : Bool :=
  match evollaAttentionInit hiddenSize numAttentionHeads numKeyValueHeads with
  | .ok _ => true
  | .error _ => false

/-! ## Key/value head repetition (`repeat_kv`, modeling_evolla.py:298-307)

```python
batch, num_key_value_heads, slen, head_dim = hidden_states.shape
if n_rep == 1:
    return hidden_states
hidden_states = hidden_states[:, :, None, :, :].expand(batch, num_key_value_heads, n_rep, slen, head_dim)
return hidden_states.reshape(batch, num_key_value_heads * n_rep, slen, head_dim)
```
-/

/-- The rank-5 expanded view `hidden_states[:, :, None, :, :].expand(...)`:
the inserted axis of size `n_rep` repeats each key/value head. -/
def expandKV (t : Tensor4) : Nat → Nat → Nat → Nat → Nat → ℚ :=
  fun b k _r s d => t.entry b k s d

/-- `.reshape(batch, num_key_value_heads * n_rep, slen, head_dim)`: merging the
two adjacent axes `(k, r)` of a contiguous row-major tensor into a single axis
of size `num_key_value_heads * n_rep` sends the merged index `h` to the pair
`(h / n_rep, h % n_rep)`. -/
def reshapeMergeHeads (e : Nat → Nat → Nat → Nat → Nat → ℚ) (nRep : Nat) :
    Nat → Nat → Nat → Nat → ℚ :=
  fun b h s d => e b (h / nRep) (h % nRep) s d

def repeat_kv (t : Tensor4) (nRep : Nat) : Tensor4 :=
  if nRep = 1 then t
  else
    { dims := (t.dims.1, t.dims.2.1 * nRep, t.dims.2.2.1, t.dims.2.2.2)
      entry := reshapeMergeHeads (expandKV t) nRep }

/-! ## Input validation and cache plumbing of the forward passes

`EvollaLLM.forward` (modeling_evolla.py:792-966), `EvollaModel.forward`
(modeling_evolla.py:1149-1220) and `EvollaForProteinText2Text.forward`
(modeling_evolla.py:1251-1320). We model the slice of these functions that
the validation and cache claims observe: the presence/absence of the
optional arguments, the `use_cache` resolution, and the `past_key_values`
field of the produced outputs. Caches are abstracted to `Nat` (with `0`
standing for a freshly created `DynamicCache`). -/

def textInputsErrorMsg : String := "You must specify exactly one of input_ids or inputs_embeds"

def proteinRequiredMsg : String := "protein_input_ids is required"

/-- The shared text-input validation
`if (input_ids is None) ^ (inputs_embeds is not None): raise ValueError(...)`
(modeling_evolla.py:819-820 and 1169-1170): `true` iff the `ValueError` is raised. -/
def textInputsRaise (hasInputIds hasInputsEmbeds : Bool) : Bool :=
  xor (!hasInputIds) hasInputsEmbeds

/-- The cache-relevant field of the `BaseModelOutputWithPast` returned by
`EvollaLLM.forward`. -/
structure LLMOutput where
  pastKeyValues : Option Nat
  deriving DecidableEq, Repr

/-- `EvollaLLM.forward` (modeling_evolla.py:792-966): resolve `use_cache`
against the config (line 816), validate the text inputs (lines 819-820),
disable the cache under gradient checkpointing in training (lines 822-826),
create a fresh `DynamicCache` when caching with no incoming cache
(lines 835-836), and return the cache in the output iff `use_cache`
(line 962). -/
def llmForward (hasInputIds hasInputsEmbeds : Bool) (useCacheArg : Option Bool)
    (configUseCache : Bool) (pastKeyValuesIn : Option Nat) (gradCkptTraining : Bool) :
    Except PyError LLMOutput :=
  let useCache := useCacheArg.getD configUseCache
  if textInputsRaise hasInputIds hasInputsEmbeds then .error (.valueError textInputsErrorMsg)
  else
    let useCache := if gradCkptTraining && useCache then false else useCache
    let pastKeyValues := if useCache && pastKeyValuesIn.isNone then some 0 else pastKeyValuesIn
    .ok { pastKeyValues := if useCache then pastKeyValues else none }

/-- The `use_cache` and `past_key_values` arguments of the internal
`self.llm(...)` call made by `EvollaModel.forward` (modeling_evolla.py:1190-1199);
that call passes neither, so both fall back to their Python defaults (`None`). -/
structure LLMCallRecord where
  useCachePassed : Option Bool
  pastKeyValuesPassed : Option Nat
  deriving DecidableEq, Repr

/-- The cache-relevant field of the `EvollaBaseModelOutputWithPast` returned by
`EvollaModel.forward`. -/
structure EvollaModelOutput where
  pastKeyValues : Option Nat
  deriving DecidableEq, Repr

/-- `EvollaModel.forward` (modeling_evolla.py:1149-1220): resolve `use_cache`
(line 1166, the resolved value is never used afterwards), validate the text
inputs (lines 1169-1170), require `protein_input_ids` (lines 1172-1173), run
the protein encoder and call `self.llm(...)` without `use_cache` and without
`past_key_values` (lines 1190-1199), and build the output dataclass without
`past_key_values`, so its default `None` applies (lines 1214-1219). The
returned pair also records the arguments of the internal llm call. -/
def evollaModelForward (hasInputIds hasInputsEmbeds hasProteinInputIds : Bool)
    (useCacheArg : Option Bool) (configUseCache : Bool) (gradCkptTraining : Bool) :
    Except PyError (EvollaModelOutput × LLMCallRecord) :=
  let _useCache := useCacheArg.getD configUseCache
  if textInputsRaise hasInputIds hasInputsEmbeds then .error (.valueError textInputsErrorMsg)
  else if !hasProteinInputIds then .error (.valueError proteinRequiredMsg)
  else
    let llmCall : LLMCallRecord := { useCachePassed := none, pastKeyValuesPassed := none }
    match llmForward hasInputIds hasInputsEmbeds llmCall.useCachePassed configUseCache
        llmCall.pastKeyValuesPassed gradCkptTraining with
    | .error e => .error e
    | .ok _textOutputs => .ok ({ pastKeyValues := none }, llmCall)

/-- The cache-relevant field of the `CausalLMOutputWithPast` returned by
`EvollaForProteinText2Text.forward`. -/
structure LMOutput where
  pastKeyValues : Option Nat
  deriving DecidableEq, Repr

/-- `EvollaForProteinText2Text.forward` (modeling_evolla.py:1251-1320): call
`self.model(...)` forwarding `use_cache` (line 1302), and copy
`outputs.past_key_values` into the language-model output (line 1316). -/
def evollaForProteinText2TextForward (hasInputIds hasInputsEmbeds hasProteinInputIds : Bool)
    (useCacheArg : Option Bool) (configUseCache : Bool) (gradCkptTraining : Bool) :
    Except PyError LMOutput :=
  match evollaModelForward hasInputIds hasInputsEmbeds hasProteinInputIds
      useCacheArg configUseCache gradCkptTraining with
  | .error e => .error e
  | .ok (outputs, _) => .ok { pastKeyValues := outputs.pastKeyValues }

/-! ## Rotary embedding state (`EvollaRotaryEmbedding`, modeling_evolla.py:184-239)

`rope_init_fn(config, device)` produces the original
`(inv_freq, attention_scaling)` pair and `rope_init_fn(config, device,
seq_len=s)` the pair rescaled for sequence length `s`; both are deterministic
functions of those arguments, so the table is represented symbolically by the
arguments it was computed from. -/

/-- Symbolic inverse-frequency table (together with its `attention_scaling`). -/
inductive InvFreq where
  | original
  | scaledFor (seqLen : Nat)
  deriving DecidableEq, Repr

/-- The mutable state of an `EvollaRotaryEmbedding` module:
`max_seq_len_cached`, the immutable `original_max_seq_len`, and the
`inv_freq` buffer. -/
structure RotaryState where
  maxSeqLenCached : Nat
  originalMaxSeqLen : Nat
  invFreq : InvFreq
  deriving DecidableEq, Repr

/-- `EvollaRotaryEmbedding._dynamic_frequency_update`
(modeling_evolla.py:202-216), with `maxPositionId = torch.max(position_ids)`
so that `seq_len = maxPositionId + 1`:

```python
seq_len = torch.max(position_ids) + 1
if seq_len > self.max_seq_len_cached:  # growth
    inv_freq, self.attention_scaling = self.rope_init_fn(self.config, device, seq_len=seq_len)
    self.register_buffer("inv_freq", inv_freq, persistent=False)
    self.max_seq_len_cached = seq_len
if seq_len < self.original_max_seq_len and self.max_seq_len_cached > self.original_max_seq_len:  # reset
    self.register_buffer("inv_freq", self.original_inv_freq, persistent=False)
    self.max_seq_len_cached = self.original_max_seq_len
```
-/
def dynamicFrequencyUpdate (st : RotaryState) (maxPositionId : Nat) : RotaryState :=
  let seqLen := maxPositionId + 1
  let st1 :=
    if st.maxSeqLenCached < seqLen then
      { st with invFreq := .scaledFor seqLen, maxSeqLenCached := seqLen }
    else st
  if seqLen < st1.originalMaxSeqLen ∧ st1.originalMaxSeqLen < st1.maxSeqLenCached then
    { st1 with invFreq := .original, maxSeqLenCached := st1.originalMaxSeqLen }
  else st1

/-- `torch.max(position_ids)` for a non-empty list of position ids (0 on the
empty list, on which `torch.max` would raise). -/
def maxPosition (positionIds : List Nat) : Nat :=
  positionIds.foldl max 0

/-- The data determining the `(cos, sin)` pair returned by
`EvollaRotaryEmbedding.forward`: after the optional dynamic update, the
returned tensors are a fixed pure function (outer product, `cos`, `sin`,
`attention_scaling` multiplication, dtype cast) of the inverse-frequency
table and the position ids, so two outputs are bit-identical iff these
data agree. -/
structure RotaryOutput where
  invFreq : InvFreq
  positionIds : List Nat
  deriving DecidableEq, Repr

/-- `EvollaRotaryEmbedding.forward` (modeling_evolla.py:218-239): run
`_dynamic_frequency_update` when the rope type contains `"dynamic"`, then
compute `(cos, sin)` from the (possibly updated) `inv_freq` buffer and the
position ids. Returns the new module state and the output. -/
def rotaryForward (isDynamicRope : Bool) (st : RotaryState) (positionIds : List Nat) :
    RotaryState × RotaryOutput :=
  let st1 := if isDynamicRope then dynamicFrequencyUpdate st (maxPosition positionIds) else st
  (st1, { invFreq := st1.invFreq, positionIds := positionIds })

/-! ## Causal mask construction
(`EvollaLLM._prepare_4d_causal_attention_mask_with_cache_position`,
modeling_evolla.py:1033-1087), branch for a 2D padding mask:

```python
min_dtype = torch.finfo(dtype).min
causal_mask = torch.full((sequence_length, target_length), fill_value=min_dtype, dtype=dtype, device=device)
if sequence_length != 1:
    causal_mask = torch.triu(causal_mask, diagonal=1)
causal_mask *= torch.arange(target_length, device=device) > cache_position.reshape(-1, 1)
causal_mask = causal_mask[None, None, :, :].expand(batch_size, 1, -1, -1)
if attention_mask is not None:
    causal_mask = causal_mask.clone()
    mask_length = attention_mask.shape[-1]
    padding_mask = causal_mask[:, :, :, :mask_length] + attention_mask[:, None, None, :]
    padding_mask = padding_mask == 0
    causal_mask[:, :, :, :mask_length] = causal_mask[:, :, :, :mask_length].masked_fill(padding_mask, min_dtype)
```

`minDtype` stands for `torch.finfo(dtype).min` (a parameter, since it depends
on the working dtype); `attentionMask b j` is the 2D mask entry and
`cachePosition i` the `i`-th cache position. -/

/-- Entry `[i, j]` after `torch.full(..., min_dtype)` and (when
`sequence_length != 1`) `torch.triu(·, diagonal=1)`, which keeps the entries
with `j ≥ i + 1` and zeroes the rest. -/
def triuEntry (minDtype : ℚ) (sequenceLength i j : Nat) : ℚ :=
  if sequenceLength ≠ 1 then (if i + 1 ≤ j then minDtype else 0) else minDtype

/-- Entry `[i, j]` after the further in-place multiplication by the boolean
factor `arange(target_length) > cache_position.reshape(-1, 1)`, which is `1`
when `j > cache_position[i]` and `0` otherwise. -/
def causalEntry (minDtype : ℚ) (sequenceLength : Nat) (cachePosition : Nat → Nat)
    (i j : Nat) : ℚ :=
  triuEntry minDtype sequenceLength i j * (if cachePosition i < j then 1 else 0)

/-- Entry `[b, 0, i, j]` of the built mask, after the padding pass has set
to `min_dtype` (within the first `mask_length` columns) every entry where
`causal_mask + attention_mask == 0`. -/
def causalMaskEntry (minDtype : ℚ) (attentionMask : Nat → Nat → ℚ) (maskLength : Nat)
    (sequenceLength : Nat) (cachePosition : Nat → Nat) (b i j : Nat) : ℚ :=
  if j < maskLength then
    (if causalEntry minDtype sequenceLength cachePosition i j + attentionMask b j = 0 then
      minDtype
    else causalEntry minDtype sequenceLength cachePosition i j)
  else causalEntry minDtype sequenceLength cachePosition i j

/-- The full rank-4 mask of shape `(batch_size, 1, sequence_length,
target_length)` built from a 2D padding mask of length `maskLength`. -/
def prepare4dCausalAttentionMask (minDtype : ℚ) (attentionMask : Nat → Nat → ℚ)
    (maskLength batchSize sequenceLength targetLength : Nat)
    (cachePosition : Nat → Nat) : Tensor4 :=
  { dims := (batchSize, 1, sequenceLength, targetLength)
    entry := fun b _ i j =>
      causalMaskEntry minDtype attentionMask maskLength sequenceLength cachePosition b i j }

/-! ## Decoder stack (`EvollaDecoderLayer.forward`, modeling_evolla.py:451-491,
and the decoder loop of `EvollaLLM.forward`, modeling_evolla.py:865-949)

Hidden states live in an arbitrary additive type `V`; the sub-modules
(layernorms, self-attention with its fixed mask/position arguments,
MLP, cross-attention adapter with its fixed protein arguments) are
abstract functions `V → V`. -/

/-- One decoder layer: its sub-modules, plus the optional cross-attention
`adapter` attached at construction time. -/
structure EvollaDecoderLayerM (V : Type) where
  inputLayernorm : V → V
  selfAttn : V → V
  postAttentionLayernorm : V → V
  mlp : V → V
  adapter : Option (V → V)

/-- `EvollaDecoderLayer.forward` (modeling_evolla.py:451-491): the
self-attention residual block followed by the MLP residual block. -/
def evollaDecoderLayerForward {V : Type} [Add V] (L : EvollaDecoderLayerM V) (h : V) : V :=
  let residual := h
  let hs1 := L.selfAttn (L.inputLayernorm h)
  let hs2 := residual + hs1
  let residual2 := hs2
  let hs3 := L.mlp (L.postAttentionLayernorm hs2)
  residual2 + hs3

/-- One iteration of the decoder loop in `EvollaLLM.forward`
(modeling_evolla.py:908-949): run the layer; when the layer has an
`adapter`, `hidden_states = decoder_layer.adapter(query_states=hidden_states, ...)`
replaces the hidden state with the adapter output. -/
def evollaLLMStep {V : Type} [Add V] (L : EvollaDecoderLayerM V) (hs : V) : V :=
  match L.adapter with
  | none => evollaDecoderLayerForward L hs
  | some adapter => adapter (evollaDecoderLayerForward L hs)

/-- The decoder loop `for decoder_layer in self.layers: ...` threading the
hidden state through every layer. -/
def evollaLLMDecoderLoop {V : Type} [Add V] (layers : List (EvollaDecoderLayerM V))
    (hs : V) : V :=
  layers.foldl (fun h L => evollaLLMStep L h) hs

/-! ## Theorems -/

/-- **C2.** For every `num_hidden_layers = n` and `num_add_layers = k > 0`
(with `k = 0` the Python construction raises `ZeroDivisionError`), the
adapter-bearing 0-based layer indices computed once at construction are
exactly the `i < n` with `(i + 1)` a multiple of `max(n // k, 1)`; in
particular for `n = 32`, `k = 8` they are exactly
`{3, 7, 11, 15, 19, 23, 27, 31}`. The set is a pure function of `(n, k)`,
hence fixed for the model's lifetime. -/
theorem adapter_placement (n k i : Nat) (hk : 0 < k) :
    (i ∈ adapterIndices n k ↔ i < n ∧ (i + 1) % max (n / k) 1 = 0) ∧
    adapterIndices 32 8 = [3, 7, 11, 15, 19, 23, 27, 31] := by
  refine ⟨?_, by decide⟩
  simp [adapterIndices, hasAdapterAt, List.mem_filter, List.mem_range, and_comm]

/-- Witness for `adapter_placement` at `n = 32`, `k = 8`, `i = 3`. -/
theorem adapter_placement_witness :
    (3 ∈ adapterIndices 32 8 ↔ 3 < 32 ∧ (3 + 1) % max (32 / 8) 1 = 0) ∧
    adapterIndices 32 8 = [3, 7, 11, 15, 19, 23, 27, 31] :=
  adapter_placement 32 8 3 (by decide)

/-- **C3, counterexample.** The claim states construction fails whenever
`num_key_value_heads` does not evenly divide `num_attention_heads`; but with
`hidden_size = 64`, `num_attention_heads = 8`, `num_key_value_heads = 3`
(3 does not divide 8, `8 // 3 = 2 > 0`) `EvollaAttention.__init__` completes
without raising. -/
theorem attention_init_no_divisibility_check :
    attentionInitSucceeds 64 8 3 = true ∧ ¬ (3 ∣ 8) := by decide

/-- **C3, amended.** `EvollaAttention.__init__` (for a positive number of
attention heads) succeeds iff `num_key_value_heads` is positive and at most
`num_attention_heads` — i.e. it fails exactly when the floor ratio
`num_attention_heads // num_key_value_heads` is zero or the division by
`num_key_value_heads = 0` raises; divisibility is not validated. In
particular `(num_attention_heads, num_key_value_heads) = (8, 8)` succeeds
and `num_key_value_heads = 0` fails. -/
theorem attention_init_succeeds_iff (hiddenSize numAttentionHeads numKeyValueHeads : Nat)
    (hnh : 0 < numAttentionHeads) :
    (attentionInitSucceeds hiddenSize numAttentionHeads numKeyValueHeads = true ↔
      0 < numKeyValueHeads ∧ numKeyValueHeads ≤ numAttentionHeads) ∧
    attentionInitSucceeds 64 8 8 = true ∧
    attentionInitSucceeds 64 8 0 = false := by
  refine ⟨?_, by decide, by decide⟩
  have h1 : numAttentionHeads ≠ 0 := Nat.pos_iff_ne_zero.mp hnh
  by_cases h2 : numKeyValueHeads = 0
  · subst h2
    simp [attentionInitSucceeds, evollaAttentionInit, h1]
  · have hq : 0 < numAttentionHeads / numKeyValueHeads ↔
        numKeyValueHeads ≤ numAttentionHeads := Nat.div_pos_iff h2
    by_cases h3 : 0 < numAttentionHeads / numKeyValueHeads
    · simp [attentionInitSucceeds, evollaAttentionInit, h1, h2, h3, hq.mp h3,
        Nat.pos_of_ne_zero h2]
    · simp [attentionInitSucceeds, evollaAttentionInit, h1, h2, h3]
      intro _
      exact Nat.not_le.mp (fun hle => h3 (hq.mpr hle))

/-- Witness for `attention_init_succeeds_iff` at
`(hidden_size, heads, kv_heads) = (64, 8, 2)`. -/
theorem attention_init_succeeds_iff_witness :
    (attentionInitSucceeds 64 8 2 = true ↔ 0 < 2 ∧ 2 ≤ 8) ∧
    attentionInitSucceeds 64 8 8 = true ∧
    attentionInitSucceeds 64 8 0 = false :=
  attention_init_succeeds_iff 64 8 2 (by decide)

/-- **C4.** In both `EvollaModel.forward` and `EvollaLLM.forward`, the
text-input `ValueError` ("You must specify exactly one of input_ids or
inputs_embeds") is raised iff both of `input_ids` and `inputs_embeds` are
supplied or neither is; when exactly one is supplied the validation passes
(`EvollaLLM.forward` then returns normally, and `EvollaModel.forward` never
raises this particular error). -/
theorem exactly_one_text_input (hasInputIds hasInputsEmbeds hasProteinInputIds : Bool)
    (useCacheArg : Option Bool) (configUseCache gradCkptTraining : Bool)
    (pastKeyValuesIn : Option Nat) :
    ((hasInputIds == hasInputsEmbeds) = true →
      evollaModelForward hasInputIds hasInputsEmbeds hasProteinInputIds useCacheArg
          configUseCache gradCkptTraining = .error (.valueError textInputsErrorMsg) ∧
      llmForward hasInputIds hasInputsEmbeds useCacheArg configUseCache
          pastKeyValuesIn gradCkptTraining = .error (.valueError textInputsErrorMsg)) ∧
    ((hasInputIds == hasInputsEmbeds) = false →
      evollaModelForward hasInputIds hasInputsEmbeds hasProteinInputIds useCacheArg
          configUseCache gradCkptTraining ≠ .error (.valueError textInputsErrorMsg) ∧
      ∃ out, llmForward hasInputIds hasInputsEmbeds useCacheArg configUseCache
          pastKeyValuesIn gradCkptTraining = .ok out) := by
  cases hasInputIds <;> cases hasInputsEmbeds <;> cases hasProteinInputIds <;>
    simp [evollaModelForward, llmForward, textInputsRaise, textInputsErrorMsg,
      proteinRequiredMsg]

/-- Witness for `exactly_one_text_input`: both text inputs supplied raises;
exactly one supplied passes the llm validation. -/
theorem exactly_one_text_input_witness :
    evollaModelForward true true true none true false =
      .error (.valueError textInputsErrorMsg) ∧
    ∃ out, llmForward true false none true none false = .ok out :=
  ⟨((exactly_one_text_input true true true none true false none).1 rfl).1,
   ((exactly_one_text_input true false true none true false none).2 rfl).2⟩

/-- **C5.** Whenever `protein_input_ids` is absent, `EvollaModel.forward`
raises a `ValueError` (the protein one, or — when the text inputs are also
invalid — the text-input one, which is checked first). Both raises happen in
the validation prologue, before the branch of the embedding that invokes the
protein encoder and the decoder stack, so an error return implies neither
ever ran. -/
theorem protein_input_required (hasInputIds hasInputsEmbeds : Bool)
    (useCacheArg : Option Bool) (configUseCache gradCkptTraining : Bool) :
    evollaModelForward hasInputIds hasInputsEmbeds false useCacheArg configUseCache
        gradCkptTraining = .error (.valueError textInputsErrorMsg) ∨
    evollaModelForward hasInputIds hasInputsEmbeds false useCacheArg configUseCache
        gradCkptTraining = .error (.valueError proteinRequiredMsg) := by
  cases hasInputIds <;> cases hasInputsEmbeds <;>
    simp [evollaModelForward, textInputsRaise]

/-- **C10.** For every call to `EvollaModel.forward`, regardless of the
`use_cache` argument and of `config.use_cache`, the internal `self.llm(...)`
call passes neither `use_cache` nor `past_key_values`, and the returned
output's `past_key_values` field is always `None`; consequently
`EvollaForProteinText2Text.forward` also always returns
`past_key_values = None`. -/
theorem past_key_values_always_none (hasInputIds hasInputsEmbeds hasProteinInputIds : Bool)
    (useCacheArg : Option Bool) (configUseCache gradCkptTraining : Bool)
    (outputs : EvollaModelOutput × LLMCallRecord) (lmOutputs : LMOutput) :
    (evollaModelForward hasInputIds hasInputsEmbeds hasProteinInputIds useCacheArg
        configUseCache gradCkptTraining = .ok outputs →
      outputs.2.useCachePassed = none ∧ outputs.2.pastKeyValuesPassed = none ∧
      outputs.1.pastKeyValues = none) ∧
    (evollaForProteinText2TextForward hasInputIds hasInputsEmbeds hasProteinInputIds
        useCacheArg configUseCache gradCkptTraining = .ok lmOutputs →
      lmOutputs.pastKeyValues = none) := by
  cases hasInputIds <;> cases hasInputsEmbeds <;> cases hasProteinInputIds <;>
    constructor <;> intro h <;>
      simp_all [evollaModelForward, evollaForProteinText2TextForward, llmForward,
        textInputsRaise] <;>
      subst h <;> simp

/-- Witness for `past_key_values_always_none` with `input_ids` and protein
inputs supplied and `use_cache = some true`, `config.use_cache = true`. -/
theorem past_key_values_always_none_witness :
    (({ pastKeyValues := none }, { useCachePassed := none, pastKeyValuesPassed := none }) :
        EvollaModelOutput × LLMCallRecord).2.useCachePassed = none ∧
    (({ pastKeyValues := none }, { useCachePassed := none, pastKeyValuesPassed := none }) :
        EvollaModelOutput × LLMCallRecord).2.pastKeyValuesPassed = none ∧
    (({ pastKeyValues := none }, { useCachePassed := none, pastKeyValuesPassed := none }) :
        EvollaModelOutput × LLMCallRecord).1.pastKeyValues = none :=
  (past_key_values_always_none true false true (some true) true false
    ({ pastKeyValues := none }, { useCachePassed := none, pastKeyValuesPassed := none })
    { pastKeyValues := none }).1 rfl

/-- **C8.** For every rank-4 tensor of shape
`(batch, num_key_value_heads, seq_len, head_dim)` and every `n_rep ≥ 1`,
`repeat_kv` returns a tensor of shape
`(batch, num_key_value_heads * n_rep, seq_len, head_dim)` whose head `h` is
an identical copy of input head `h / n_rep` — each key/value head is
repeated, not reduced, across its `n_rep` contiguous assigned query heads. -/
theorem repeat_kv_spec (t : Tensor4) (nRep : Nat) (hrep : 1 ≤ nRep) :
    (repeat_kv t nRep).dims =
      (t.dims.1, t.dims.2.1 * nRep, t.dims.2.2.1, t.dims.2.2.2) ∧
    ∀ b h s d, (repeat_kv t nRep).entry b h s d = t.entry b (h / nRep) s d := by
  constructor
  · by_cases h1 : nRep = 1 <;> simp [repeat_kv, h1]
  · intro b h s d
    by_cases h1 : nRep = 1 <;>
      simp [repeat_kv, h1, reshapeMergeHeads, expandKV]

/-- A concrete `(1, 2, 3, 4)`-shaped key/value tensor with pairwise distinct
entries, used to witness `repeat_kv_spec`. -/
def exampleKV : Tensor4 :=
  { dims := (1, 2, 3, 4)
    entry := fun b k s d => (b : ℚ) + 10 * k + 100 * s + 1000 * d }

/-- Witness for `repeat_kv_spec` at `n_rep = 4` (8 query heads, 2 key/value
heads): query head 5 reads key/value head `5 / 4 = 1`. -/
theorem repeat_kv_spec_witness :
    (repeat_kv exampleKV 4).dims =
      (exampleKV.dims.1, exampleKV.dims.2.1 * 4, exampleKV.dims.2.2.1,
        exampleKV.dims.2.2.2) ∧
    (repeat_kv exampleKV 4).entry 0 5 1 2 = exampleKV.entry 0 (5 / 4) 1 2 :=
  ⟨(repeat_kv_spec exampleKV 4 (by decide)).1,
   (repeat_kv_spec exampleKV 4 (by decide)).2 0 5 1 2⟩

/-- Growth case of `_dynamic_frequency_update`. -/
theorem dynamicFrequencyUpdate_growth (st : RotaryState) (maxPositionId : Nat)
    (hg : st.maxSeqLenCached < maxPositionId + 1) :
    dynamicFrequencyUpdate st maxPositionId =
      { st with invFreq := .scaledFor (maxPositionId + 1),
                maxSeqLenCached := maxPositionId + 1 } := by
  simp only [dynamicFrequencyUpdate, if_pos hg]
  rw [if_neg (by simp; omega)]

theorem dynamicFrequencyUpdate_reset (st : RotaryState) (maxPositionId : Nat)
    (hng : maxPositionId + 1 ≤ st.maxSeqLenCached)
    (hlt : maxPositionId + 1 < st.originalMaxSeqLen)
    (hgt : st.originalMaxSeqLen < st.maxSeqLenCached) :
    dynamicFrequencyUpdate st maxPositionId =
      { st with invFreq := .original, maxSeqLenCached := st.originalMaxSeqLen } := by
  simp only [dynamicFrequencyUpdate,
    if_neg (by omega : ¬ st.maxSeqLenCached < maxPositionId + 1)]
  rw [if_pos ⟨hlt, hgt⟩]

theorem dynamicFrequencyUpdate_unchanged (st : RotaryState) (maxPositionId : Nat)
    (hng : maxPositionId + 1 ≤ st.maxSeqLenCached)
    (hnot : ¬(maxPositionId + 1 < st.originalMaxSeqLen ∧
      st.originalMaxSeqLen < st.maxSeqLenCached)) :
    dynamicFrequencyUpdate st maxPositionId = st := by
  simp only [dynamicFrequencyUpdate,
    if_neg (by omega : ¬ st.maxSeqLenCached < maxPositionId + 1)]
  rw [if_neg hnot]

/-- **C6.** `_dynamic_frequency_update` realises exactly the two-state
behaviour. Writing `seq_len = maxPositionId + 1` for the sequence length
implied by the largest position id of the call: if `seq_len` exceeds the
cached maximum, the table is recomputed scaled for `seq_len` and the cached
maximum becomes `seq_len`; otherwise, if `seq_len` is strictly below the
original trained maximum while the cached maximum strictly exceeds it, table
and cached maximum are reset to their originals; in every other case the
state is unchanged. -/
theorem dynamic_frequency_update_cases (st : RotaryState) (maxPositionId : Nat) :
    (st.maxSeqLenCached < maxPositionId + 1 →
      dynamicFrequencyUpdate st maxPositionId =
        { st with invFreq := .scaledFor (maxPositionId + 1),
                  maxSeqLenCached := maxPositionId + 1 }) ∧
    (maxPositionId + 1 ≤ st.maxSeqLenCached →
      maxPositionId + 1 < st.originalMaxSeqLen →
      st.originalMaxSeqLen < st.maxSeqLenCached →
      dynamicFrequencyUpdate st maxPositionId =
        { st with invFreq := .original, maxSeqLenCached := st.originalMaxSeqLen }) ∧
    (maxPositionId + 1 ≤ st.maxSeqLenCached →
      ¬(maxPositionId + 1 < st.originalMaxSeqLen ∧
        st.originalMaxSeqLen < st.maxSeqLenCached) →
      dynamicFrequencyUpdate st maxPositionId = st) :=
  ⟨dynamicFrequencyUpdate_growth st maxPositionId,
   dynamicFrequencyUpdate_reset st maxPositionId,
   dynamicFrequencyUpdate_unchanged st maxPositionId⟩

/-- A concrete initial rotary state (cached = original = 4). -/
def exampleRotaryState : RotaryState :=
  { maxSeqLenCached := 4, originalMaxSeqLen := 4, invFreq := .original }

/-- Witness for `dynamic_frequency_update_cases`, exercising the growth case
from the initial state with maximum position id 9. -/
theorem dynamic_frequency_update_cases_witness :
    dynamicFrequencyUpdate exampleRotaryState 9 =
      { exampleRotaryState with
          invFreq := .scaledFor (9 + 1)
          maxSeqLenCached := 9 + 1 } :=
  (dynamic_frequency_update_cases exampleRotaryState 9).1 (by decide)

/-- `_dynamic_frequency_update` is idempotent: a second update with the same
maximum position id leaves the state fixed. -/
theorem dynamicFrequencyUpdate_idem (st : RotaryState) (maxPositionId : Nat) :
    dynamicFrequencyUpdate (dynamicFrequencyUpdate st maxPositionId) maxPositionId =
      dynamicFrequencyUpdate st maxPositionId := by
  by_cases h1 : st.maxSeqLenCached < maxPositionId + 1
  · rw [dynamicFrequencyUpdate_growth st maxPositionId h1]
    exact dynamicFrequencyUpdate_unchanged _ _ (by simp) (by simp; omega)
  · by_cases h2 : maxPositionId + 1 < st.originalMaxSeqLen ∧
        st.originalMaxSeqLen < st.maxSeqLenCached
    · rw [dynamicFrequencyUpdate_reset st maxPositionId (by omega) h2.1 h2.2]
      exact dynamicFrequencyUpdate_unchanged _ _ (by simp; omega) (by simp)
    · rw [dynamicFrequencyUpdate_unchanged st maxPositionId (by omega) h2]
      exact dynamicFrequencyUpdate_unchanged st maxPositionId (by omega) h2

/-- **C7.** Calling `EvollaRotaryEmbedding.forward` twice in succession with
the same position ids yields identical `(cos, sin)` outputs, and the second
call leaves the module state (the dynamic-growth frequency cache) exactly
where the first call put it: the only state the first call may mutate is
that cache, and the second call neither changes it further nor produces a
different output. -/
theorem rotary_forward_repeat_stable (isDynamicRope : Bool) (st : RotaryState)
    (positionIds : List Nat) :
    (rotaryForward isDynamicRope (rotaryForward isDynamicRope st positionIds).1
        positionIds).2 =
      (rotaryForward isDynamicRope st positionIds).2 ∧
    (rotaryForward isDynamicRope (rotaryForward isDynamicRope st positionIds).1
        positionIds).1 =
      (rotaryForward isDynamicRope st positionIds).1 := by
  cases isDynamicRope <;>
    simp [rotaryForward, dynamicFrequencyUpdate_idem]

/-- **C1.** For every 2D padding mask (entries `attentionMask b j ∈ {0, 1}`,
key positions `j < maskLength` being the range the mask covers) and every
cache position vector satisfying the call-site invariant
`cache_position[i] ≥ i` (in every call it is `arange(past, past + seq_len)`),
the built bias has rank-4 shape `(batch, 1, sequence_length, target_length)`
and, at every `[b, 0, i, j]` with `j` inside the 2D mask's range: if the key
is marked `1` then the entry is the dtype minimum when `cache_position[i] < j`
and `0` when `j ≤ cache_position[i]`; if the key is marked `0` the entry is
the dtype minimum. -/
theorem causal_mask_spec (minDtype : ℚ) (attentionMask : Nat → Nat → ℚ)
    (maskLength batchSize sequenceLength targetLength : Nat)
    (cachePosition : Nat → Nat) (b i j : Nat)
    (hcp : i ≤ cachePosition i) (hj : j < maskLength) :
    (prepare4dCausalAttentionMask minDtype attentionMask maskLength batchSize
        sequenceLength targetLength cachePosition).dims =
      (batchSize, 1, sequenceLength, targetLength) ∧
    (attentionMask b j = 1 →
      (cachePosition i < j →
        (prepare4dCausalAttentionMask minDtype attentionMask maskLength batchSize
          sequenceLength targetLength cachePosition).entry b 0 i j = minDtype) ∧
      (j ≤ cachePosition i →
        (prepare4dCausalAttentionMask minDtype attentionMask maskLength batchSize
          sequenceLength targetLength cachePosition).entry b 0 i j = 0)) ∧
    (attentionMask b j = 0 →
      (prepare4dCausalAttentionMask minDtype attentionMask maskLength batchSize
        sequenceLength targetLength cachePosition).entry b 0 i j = minDtype) := by
  refine ⟨rfl, fun hmask => ⟨fun hlt => ?_, fun hge => ?_⟩, fun hmask => ?_⟩
  · have htri : triuEntry minDtype sequenceLength i j = minDtype := by
      unfold triuEntry
      by_cases hs : sequenceLength ≠ 1
      · rw [if_pos hs, if_pos (by omega)]
      · rw [if_neg hs]
    have hcaus : causalEntry minDtype sequenceLength cachePosition i j = minDtype := by
      unfold causalEntry
      rw [htri, if_pos hlt, mul_one]
    show causalMaskEntry minDtype attentionMask maskLength sequenceLength cachePosition
        b i j = minDtype
    unfold causalMaskEntry
    rw [if_pos hj, hcaus, hmask]
    by_cases hz : minDtype + 1 = 0
    · rw [if_pos hz]
    · rw [if_neg hz]
  · have hcaus : causalEntry minDtype sequenceLength cachePosition i j = 0 := by
      unfold causalEntry
      rw [if_neg (by omega : ¬ cachePosition i < j), mul_zero]
    show causalMaskEntry minDtype attentionMask maskLength sequenceLength cachePosition
        b i j = 0
    unfold causalMaskEntry
    rw [if_pos hj, hcaus, hmask, if_neg (by norm_num)]
  · have hcases : causalEntry minDtype sequenceLength cachePosition i j = 0 ∨
        causalEntry minDtype sequenceLength cachePosition i j = minDtype := by
      unfold causalEntry triuEntry
      by_cases hlt : cachePosition i < j
      · rw [if_pos hlt, mul_one]
        by_cases hs : sequenceLength ≠ 1
        · rw [if_pos hs]
          by_cases hij : i + 1 ≤ j
          · exact Or.inr (if_pos hij)
          · exact Or.inl (if_neg hij)
        · exact Or.inr (if_neg hs)
      · rw [if_neg hlt, mul_zero]
        exact Or.inl rfl
    show causalMaskEntry minDtype attentionMask maskLength sequenceLength cachePosition
        b i j = minDtype
    unfold causalMaskEntry
    rw [if_pos hj, hmask, add_zero]
    rcases hcases with hc | hc
    · rw [hc, if_pos rfl]
    · rw [hc]
      by_cases hz : minDtype = 0
      · rw [if_pos hz, hz]
      · rw [if_neg hz]

/-- A concrete 2D padding mask: key position 2 is padding, the rest are
real tokens. -/
def exampleMask2d : Nat → Nat → ℚ := fun _ j => if j = 2 then 0 else 1

/-- Witness for `causal_mask_spec`, with `min_dtype = -4`, a batch-1 mask of
key length 3, `sequence_length = 2` and `cache_position = id`: a future
unpadded key gets `-4`, a visible unpadded key gets `0`, a padded key
gets `-4`. -/
theorem causal_mask_spec_witness :
    (prepare4dCausalAttentionMask (-4) exampleMask2d 3 1 2 3 id).dims = (1, 1, 2, 3) ∧
    (prepare4dCausalAttentionMask (-4) exampleMask2d 3 1 2 3 id).entry 0 0 0 1 = -4 ∧
    (prepare4dCausalAttentionMask (-4) exampleMask2d 3 1 2 3 id).entry 0 0 1 1 = 0 ∧
    (prepare4dCausalAttentionMask (-4) exampleMask2d 3 1 2 3 id).entry 0 0 0 2 = -4 := by
  refine ⟨(causal_mask_spec (-4) exampleMask2d 3 1 2 3 id 0 0 1 (by decide)
    (by decide)).1, ?_, ?_, ?_⟩
  · exact ((causal_mask_spec (-4) exampleMask2d 3 1 2 3 id 0 0 1 (by decide)
      (by decide)).2.1 (by norm_num [exampleMask2d])).1 (by decide)
  · exact ((causal_mask_spec (-4) exampleMask2d 3 1 2 3 id 0 1 1 (by decide)
      (by decide)).2.1 (by norm_num [exampleMask2d])).2 (by decide)
  · exact (causal_mask_spec (-4) exampleMask2d 3 1 2 3 id 0 0 2 (by decide)
      (by decide)).2.2 (by norm_num [exampleMask2d])

/-- The decoder loop restricted to the first `n + 1` layers runs one
`evollaLLMStep` of layer `n` after the loop over the first `n` layers. -/
theorem decoderLoop_take_succ {V : Type} [Add V] (layers : List (EvollaDecoderLayerM V))
    (h0 : V) (n : Nat) (L : EvollaDecoderLayerM V) (hL : layers[n]? = some L) :
    evollaLLMDecoderLoop (layers.take (n + 1)) h0 =
      evollaLLMStep L (evollaLLMDecoderLoop (layers.take n) h0) := by
  induction layers generalizing n h0 with
  | nil => simp at hL
  | cons hd tl ih =>
    cases n with
    | zero =>
      simp at hL
      subst hL
      simp [evollaLLMDecoderLoop]
    | succ m =>
      simp at hL
      simpa [evollaLLMDecoderLoop] using ih (evollaLLMStep hd h0) m hL

/-- **C9.** In the decoder loop of `EvollaLLM.forward`, for every layer that
carries a cross-attention adapter, the hidden state handed to the next layer
is exactly the adapter's output applied to the residual block's result — the
adapter output unconditionally replaces the hidden state; it is not
residually added to the pre-adapter hidden state at the stack level. -/
theorem adapter_output_replaces_hidden (V : Type) [Add V]
    (layers : List (EvollaDecoderLayerM V)) (h0 : V) (n : Nat)
    (L : EvollaDecoderLayerM V) (a : V → V)
    (hL : layers[n]? = some L) (ha : L.adapter = some a) :
    evollaLLMDecoderLoop (layers.take (n + 1)) h0 =
      a (evollaDecoderLayerForward L (evollaLLMDecoderLoop (layers.take n) h0)) := by
  rw [decoderLoop_take_succ layers h0 n L hL]
  simp [evollaLLMStep, ha]

/-- A decoder layer over `ℚ` without an adapter (identity sub-modules). -/
def exampleLayerPlain : EvollaDecoderLayerM ℚ :=
  { inputLayernorm := fun x => x
    selfAttn := fun x => x
    postAttentionLayernorm := fun x => x
    mlp := fun x => x
    adapter := none }

/-- A decoder layer over `ℚ` carrying the adapter `x ↦ 3 * x`. -/
def exampleLayerAdapter : EvollaDecoderLayerM ℚ :=
  { exampleLayerPlain with adapter := some (fun x => 3 * x) }

/-- Witness for `adapter_output_replaces_hidden` on a two-layer stack whose
second layer carries the adapter. -/
theorem adapter_output_replaces_hidden_witness :
    evollaLLMDecoderLoop ([exampleLayerPlain, exampleLayerAdapter].take (1 + 1)) (1 : ℚ) =
      (fun x => 3 * x) (evollaDecoderLayerForward exampleLayerAdapter
        (evollaLLMDecoderLoop ([exampleLayerPlain, exampleLayerAdapter].take 1) (1 : ℚ))) :=
  adapter_output_replaces_hidden ℚ [exampleLayerPlain, exampleLayerAdapter] 1 1
    exampleLayerAdapter (fun x => 3 * x) rfl rfl

end Evolla
